import Mathlib

/-!
# PulseMix: the audio callback, the waveform sampling loop and the session switch

A shallow embedding of `src/pulsemix.cpp`.

* Samples are `float` in the source; they are rationals here, so every statement
  about sample values is a statement over exact arithmetic.
* `SNDFILE *` and `PaStream *` are pointers into two libraries.  A pointer is a
  natural number, and the program state carries the decoders libsndfile holds
  open and the streams PortAudio holds open, so that a pointer to a released
  resource can be told apart from a null pointer and from a live one.
* Machine integers are `Nat`/`Int` with the conversions written out.
-/

namespace PulseMix

/-! ## Data model -/

/-- The two fields of libsndfile's `SF_INFO` the program reads. -/
structure SF_INFO where
  channels : Nat
  samplerate : Nat
deriving DecidableEq, Repr

/-- A decoder libsndfile holds open: the address the program knows it by, the
channel count of the file, and the interleaved samples not yet delivered. -/
structure SNDFILE where
  addr : Nat
  channels : Nat
  pending : List ℚ
deriving DecidableEq, Repr

/-- A stream PortAudio holds open. -/
structure PaStream where
  addr : Nat
  channels : Nat
  sampleRate : Nat
  framesPerBuffer : Nat
  started : Bool
deriving DecidableEq, Repr

/-- The file-scope variables of `pulsemix.cpp` (lines 9-25) together with the two
libraries' resources, the text written to `std::cerr` and the number of redraws
queued on the drawing area. -/
structure Globals where
  audioStream : Option Nat
  audioFile : Option Nat
  audioFileInfo : SF_INFO
  leftVolume : ℚ
  rightVolume : ℚ
  audioData : List ℚ
  waveformWidth : Int
  waveformHeight : Int
  wideLeftSliderValue : ℚ
  wideRightSliderValue : ℚ
  sndfiles : List SNDFILE
  streams : List PaStream
  nextAddr : Nat
  cerr : List String
  queuedDraws : Nat
deriving DecidableEq, Repr

/-- The initial values of lines 9-25; nothing is open in either library. -/
def Globals.initial : Globals :=
  { audioStream := none, audioFile := none, audioFileInfo := ⟨0, 0⟩,
    leftVolume := 1, rightVolume := 1, audioData := [],
    waveformWidth := 800, waveformHeight := 100,
    wideLeftSliderValue := 1 / 2, wideRightSliderValue := 1 / 2,
    sndfiles := [], streams := [], nextAddr := 1, cerr := [], queuedDraws := 0 }

/-! ## Machine integers -/

/-- Conversion to a 64-bit unsigned integer (`size_t`, `unsigned long`). -/
def toUInt64 (x : Int) : Nat := (x % 18446744073709551616).toNat

/-- Conversion of an unsigned value to `int` (32 bits, two's complement). -/
def toInt32 (x : Nat) : Int :=
  if x % 4294967296 < 2147483648 then (x % 4294967296 : Nat)
  else ((x % 4294967296 : Nat) : Int) - 4294967296

/-! ## libsndfile -/

/-- The decoder the pointer `p` refers to, when libsndfile still holds it open. -/
def lookupFile (files : List SNDFILE) (p : Nat) : Option SNDFILE :=
  files.find? (fun f => f.addr == p)

/-- The call `sf_readf_float(f, out, frames)`: delivers whole frames, as many as asked for
or as many as are left; gives the frame count, the samples written to the front
of `out`, and the decoder advanced past them. -/
def sf_readf_float (f : SNDFILE) (frames : Nat) : Nat × List ℚ × SNDFILE :=
  let framesRead := min frames (f.pending.length / f.channels)
  (framesRead, f.pending.take (framesRead * f.channels),
    { f with pending := f.pending.drop (framesRead * f.channels) })

/-- The call `sf_close(p)`: libsndfile releases the decoder at `p`. -/
def sf_close (files : List SNDFILE) (p : Nat) : List SNDFILE :=
  files.filter (fun f => f.addr != p)

/-! ## The audio callback (lines 27-61) -/

/-- PortAudio's callback result `paContinue`. -/
def paContinue : Int := 0

/-- PortAudio's callback result `paComplete`. -/
def paComplete : Int := 1

/-- PortAudio's callback result `paAbort`. -/
def paAbort : Int := 2

/-- The body of the inner loop, lines 38-45, for frame `i` and channel `j`. -/
def scaleSample (g : Globals) (i j : Nat) (out : List ℚ) : List ℚ :=
  let channels := g.audioFileInfo.channels
  let sample := out.getD (i * channels + j) 0
  if j = 0 then
    out.set (i * channels + j) (g.leftVolume * (1 - g.wideLeftSliderValue) * sample)
  else if j = 1 then
    out.set (i * channels + j) (g.rightVolume * (1 - g.wideRightSliderValue) * sample)
  else out

/-- The loop of line 37: `for (int j = 0; j < audioFileInfo.channels; j++)`. -/
def scaleFrame (g : Globals) (i : Nat) (out : List ℚ) : List ℚ :=
  (List.range g.audioFileInfo.channels).foldl (fun o j => scaleSample g i j o) out

/-- The loop of line 36: `for (sf_count_t i = 0; i < framesRead; i++)`. -/
def scaleFrames (g : Globals) (framesRead : Nat) (out : List ℚ) : List ℚ :=
  (List.range framesRead).foldl (fun o i => scaleFrame g i o) out

/-- The decoder list after a read through the decoder `f` advanced it to `f2`. -/
def storeFile (files : List SNDFILE) (f f2 : SNDFILE) : List SNDFILE :=
  files.map (fun x => if x.addr == f.addr then f2 else x)

/-- The callback `audioCallback(inputBuffer, outputBuffer, frameCount, ...)`: the code,
the output buffer and the globals afterwards.  `none` is a read through a pointer
to a decoder that libsndfile has already released. -/
def audioCallback (g : Globals) (outputBuffer : List ℚ) (frameCount : Nat) :
    Option (Int × List ℚ × Globals) :=
  match g.audioFile with
  | none => some (paAbort, outputBuffer, g)
  | some p =>
    match lookupFile g.sndfiles p with
    | none => none
    | some f =>
      let r := sf_readf_float f frameCount
      let framesRead : Int := (r.1 : Nat)
      let filled := r.2.1 ++ outputBuffer.drop r.2.1.length
      let g1 := { g with sndfiles := storeFile g.sndfiles f r.2.2 }
      let out := if framesRead > 0 then scaleFrames g r.1 filled else filled
      let g2 :=
        if framesRead > 0 then
          { g1 with
            audioData := g1.audioData ++ out.take (r.1 * g.audioFileInfo.channels),
            queuedDraws := g1.queuedDraws + 1 }
        else g1
      if toUInt64 framesRead < frameCount then some (paComplete, out, g2)
      else some (paContinue, out, g2)

/-! ## The waveform sampling loop of `onDraw` (lines 72-85) -/

/-- Line 78, `int dataIndex = i * audioData.size() / waveformWidth;`: `i` and
`waveformWidth` are converted to `size_t`, the product and the quotient are taken
in 64-bit unsigned arithmetic, and the quotient is narrowed to a 32-bit `int`. -/
def dataIndex (i : Int) (size : Nat) (waveformWidth : Int) : Int :=
  toInt32 ((toUInt64 i * size % 18446744073709551616) / toUInt64 waveformWidth)

/-- Line 79, `audioData[dataIndex]`: the subscript is converted to `size_t`; a
subscript outside the vector has no defined result, which is `none`. -/
def sampleAt (audioData : List ℚ) (dataIndex : Int) : Option ℚ :=
  audioData[toUInt64 dataIndex]?

/-- The loop of line 77 from `i` on with `n` iterations to go: the `value` of line
79 of each iteration, or `none` as soon as one read is outside the vector. -/
def sampleLoop (audioData : List ℚ) (waveformWidth : Int) : Nat → Nat → Option (List ℚ)
  | 0, _ => some []
  | n + 1, i =>
    match sampleAt audioData (dataIndex i audioData.length waveformWidth) with
    | none => none
    | some value => (sampleLoop audioData waveformWidth n (i + 1)).map (fun vs => value :: vs)

/-- The values `onDraw` plots, lines 72-85: none at all when `audioData` is empty
(the guard of line 72 skips the loop), else one per `i` in `0 .. waveformWidth-1`. -/
def renderWindow (g : Globals) : Option (List ℚ) :=
  if g.audioData.isEmpty then some []
  else sampleLoop g.audioData g.waveformWidth g.waveformWidth.toNat 0

/-- One operation on the cairo path. -/
inductive PathOp where
  | moveTo (x y : ℚ)
  | lineTo (x y : ℚ)
deriving DecidableEq, Repr

/-- Line 80: `y = waveformHeight / 2 - (value * waveformHeight / 2)`, the first
quotient an integer division. -/
def lineY (waveformHeight : Int) (value : ℚ) : ℚ :=
  (waveformHeight.tdiv 2 : Int) - value * waveformHeight / 2

/-- The path `onDraw` strokes on the waveform surface: empty for an empty history,
else a `moveTo` to the left centre (line 75) and a `lineTo` per plotted value. -/
def onDraw (g : Globals) : Option (List PathOp) :=
  if g.audioData.isEmpty then some []
  else
    (sampleLoop g.audioData g.waveformWidth g.waveformWidth.toNat 0).map (fun vs =>
      PathOp.moveTo 0 (g.waveformHeight.tdiv 2 : Int) ::
        vs.mapIdx (fun i value => PathOp.lineTo i (lineY g.waveformHeight value)))

/-! ## PortAudio -/

/-- The call `Pa_StopStream(p)`: the stream at `p` is no longer running. -/
def Pa_StopStream (streams : List PaStream) (p : Nat) : List PaStream :=
  streams.map (fun s => if s.addr == p then { s with started := false } else s)

/-- The call `Pa_CloseStream(p)`: PortAudio releases the stream at `p`. -/
def Pa_CloseStream (streams : List PaStream) (p : Nat) : List PaStream :=
  streams.filter (fun s => s.addr != p)

/-- The call `Pa_StartStream(p)`: the stream at `p` runs; PortAudio calls its callback. -/
def Pa_StartStream (streams : List PaStream) (p : Nat) : List PaStream :=
  streams.map (fun s => if s.addr == p then { s with started := true } else s)

/-! ## Opening a file (lines 94-128)

The file chooser is GTK's: its answer and the chosen file name are inputs.  What
`sf_open` makes of a file name is an input too.  The PortAudio calls are taken to
succeed; the source does not look at their results. -/

/-- What `sf_open` makes of a path: a decoder with the file's `SF_INFO` and its
samples, or a null handle, with what the call left in `*sfinfo` when it wrote
there. -/
inductive OpenOutcome where
  | decoded (info : SF_INFO) (samples : List ℚ)
  | failed (info : Option SF_INFO)
deriving DecidableEq, Repr

/-- Line 108, `sf_close(audioFile)`: the decoder is released, the global still
holds its address. -/
def closeAudioFile (g : Globals) (p : Nat) : Globals :=
  { g with sndfiles := sf_close g.sndfiles p }

/-- Line 109, `audioFile = nullptr`. -/
def clearAudioFile (g : Globals) : Globals :=
  { g with audioFile := none }

/-- Line 112, `audioFile = sf_open(selectedFile, SFM_READ, &audioFileInfo)`. -/
def sf_open (outcome : OpenOutcome) (g : Globals) : Globals :=
  match outcome with
  | .decoded info samples =>
    { g with
      audioFile := some g.nextAddr, audioFileInfo := info,
      sndfiles := g.sndfiles ++ [⟨g.nextAddr, info.channels, samples⟩],
      nextAddr := g.nextAddr + 1 }
  | .failed info =>
    { g with audioFile := none, audioFileInfo := info.getD g.audioFileInfo }

/-- Line 114, the message on `std::cerr`. -/
def reportOpenError (g : Globals) : Globals :=
  { g with cerr := g.cerr ++ ["Error opening audio file."] }

/-- Line 119, `Pa_StopStream(audioStream)`. -/
def stopAudioStream (g : Globals) (q : Nat) : Globals :=
  { g with streams := Pa_StopStream g.streams q }

/-- Line 120, `Pa_CloseStream(audioStream)`; the global keeps the address. -/
def closeAudioStream (g : Globals) (q : Nat) : Globals :=
  { g with streams := Pa_CloseStream g.streams q }

/-- Line 123, `Pa_OpenDefaultStream(&audioStream, 0, channels, paFloat32,
samplerate, 256, audioCallback, audioFile)`. -/
def Pa_OpenDefaultStream (g : Globals) : Globals :=
  { g with
    audioStream := some g.nextAddr,
    streams := g.streams ++
      [⟨g.nextAddr, g.audioFileInfo.channels, g.audioFileInfo.samplerate, 256, false⟩],
    nextAddr := g.nextAddr + 1 }

/-- Line 124, `Pa_StartStream(audioStream)`. -/
def startAudioStream (g : Globals) : Globals :=
  match g.audioStream with
  | some q => { g with streams := Pa_StartStream g.streams q }
  | none => g

/-- The handler `openAudioFile`: `accepted` is whether the dialog was answered with
`GTK_RESPONSE_ACCEPT`, `selectedFile` the file name it gave (null is `none`),
`fs` what `sf_open` makes of a file name. -/
def openAudioFile (fs : String → OpenOutcome) (accepted : Bool)
    (selectedFile : Option String) (g : Globals) : Globals :=
  if accepted then
    match selectedFile with
    | none => g
    | some path =>
      let g1 :=
        match g.audioFile with
        | some p => clearAudioFile (closeAudioFile g p)
        | none => g
      let g2 := sf_open (fs path) g1
      match g2.audioFile with
      | none => reportOpenError g2
      | some _ =>
        let g3 :=
          match g2.audioStream with
          | some q => closeAudioStream (stopAudioStream g2 q) q
          | none => g2
        startAudioStream (Pa_OpenDefaultStream g3)
  else g

/-- The states `openAudioFile` passes through, one per statement executed: the
state it starts in, then the state after each of lines 108, 109, 112, 114, 119,
120, 123 and 124 that runs. -/
def openAudioFileTrace (fs : String → OpenOutcome) (accepted : Bool)
    (selectedFile : Option String) (g : Globals) : List Globals :=
  if accepted then
    match selectedFile with
    | none => [g]
    | some path =>
      let t1 :=
        match g.audioFile with
        | some p => [closeAudioFile g p, clearAudioFile (closeAudioFile g p)]
        | none => []
      let g1 := t1.getLastD g
      let g2 := sf_open (fs path) g1
      match g2.audioFile with
      | none => g :: (t1 ++ [g2, reportOpenError g2])
      | some _ =>
        let t3 :=
          match g2.audioStream with
          | some q => [stopAudioStream g2 q, closeAudioStream (stopAudioStream g2 q) q]
          | none => []
        let g3 := t3.getLastD g2
        g :: (t1 ++ [g2] ++ t3 ++
          [Pa_OpenDefaultStream g3, startAudioStream (Pa_OpenDefaultStream g3)])
  else [g]

/-- The end of `main`, lines 222-230: the states passed through when the window is
closed, the stream stopped and closed first, the decoder released after. -/
def mainTeardownTrace (g : Globals) : List Globals :=
  let t1 :=
    match g.audioStream with
    | some q => [stopAudioStream g q, closeAudioStream (stopAudioStream g q) q]
    | none => []
  let g1 := t1.getLastD g
  let t2 :=
    match g1.audioFile with
    | some p => [closeAudioFile g1 p]
    | none => []
  g :: (t1 ++ t2)

/-- The stream at `q` is held by PortAudio and running. -/
def streamStarted (g : Globals) (q : Nat) : Bool :=
  g.streams.any (fun s => s.addr == q && s.started)

/-- The decoder handle is `p` and libsndfile holds the decoder at `p` open. -/
def decoderLive (g : Globals) (p : Nat) : Bool :=
  g.audioFile == some p && (lookupFile g.sndfiles p).isSome

/-- The stream `q` still runs while the decoder handle is no longer the open
decoder `p`: it is released, null, or some other decoder. -/
def halfTornDown (g : Globals) (q p : Nat) : Bool :=
  streamStarted g q && !decoderLive g p

/-- One session and nothing else: one open decoder, which the decoder handle
points to and whose channel count is the one in `audioFileInfo`, and one open
stream, which the stream handle points to and which runs. -/
def OneSession (g : Globals) (f : SNDFILE) (st : PaStream) : Prop :=
  g.sndfiles = [f] ∧ g.audioFile = some f.addr ∧
  f.channels = g.audioFileInfo.channels ∧
  g.streams = [st] ∧ g.audioStream = some st.addr ∧ st.started = true

/-! ## Definitions used in the statements, and example states -/

/-- The sample channel `j` is left with when the decoder delivered `s`:
lines 41-45 as a function of the channel index. -/
def channelOut (g : Globals) (j : Nat) (s : ℚ) : ℚ :=
  if j = 0 then g.leftVolume * (1 - g.wideLeftSliderValue) * s
  else if j = 1 then g.rightVolume * (1 - g.wideRightSliderValue) * s
  else s

/-- The processed block: the delivered samples, each scaled for its channel, in
the order the decoder delivered them. -/
def processedBlock (g : Globals) (delivered : List ℚ) : List ℚ :=
  delivered.mapIdx (fun k s => channelOut g (k % g.audioFileInfo.channels) s)

/-- A session as `openAudioFile` leaves it, two channels, one frame `(1, 1)` left
to decode, the left width slider at 0.5 and the left gain at 1.0. -/
def stereoSession : Globals :=
  { Globals.initial with
    audioFile := some 1, audioFileInfo := ⟨2, 44100⟩,
    sndfiles := [⟨1, 2, [1, 1]⟩],
    audioStream := some 2, streams := [⟨2, 2, 44100, 256, true⟩], nextAddr := 3 }

/-- A session on a four-channel file with two frames left to decode. -/
def quadSession : Globals :=
  { Globals.initial with
    audioFile := some 1, audioFileInfo := ⟨4, 48000⟩,
    sndfiles := [⟨1, 4, [1, 2, 3, 4, 5, 6, 7, 8]⟩],
    audioStream := some 2, streams := [⟨2, 4, 48000, 256, true⟩], nextAddr := 3 }

/-- The four-channel session with two samples already in the history. -/
def quadSessionPlayed : Globals :=
  { quadSession with audioData := [9, 9] }

/-- A history of 2150171363 samples, all zero: what `audioData` holds once that
many silent samples have been played. -/
def longHistory : List ℚ := List.replicate 2150171363 0

/-- The file names of the examples: `a.wav` is a stereo file of one frame, `b.wav`
a mono file of three frames, anything else cannot be decoded. -/
def fsDemo : String → OpenOutcome := fun path =>
  if path = "a.wav" then .decoded ⟨2, 44100⟩ [1, 1]
  else if path = "b.wav" then .decoded ⟨1, 8000⟩ [3, 4, 5]
  else .failed none

/-! ## What the gain loops leave in the output buffer -/

theorem set_scaled_getElem? (l : List ℚ) (n : Nat) (c : ℚ) :
    (l.set n (c * l.getD n 0))[n]? = (l[n]?).map (fun s => c * s) := by
  by_cases h : n < l.length
  · simp [List.getElem?_set, h, List.getElem?_eq_getElem h]
  · have h2 : l[n]? = none := List.getElem?_eq_none_iff.mpr (Nat.le_of_not_lt h)
    simp [List.getElem?_set, h, h2]

theorem scaleSample_getElem? (g : Globals) (i j : Nat) (out : List ℚ) (k : Nat) :
    (scaleSample g i j out)[k]? =
      if k = i * g.audioFileInfo.channels + j then (out[k]?).map (channelOut g j)
      else out[k]? := by
  unfold scaleSample
  by_cases hk : k = i * g.audioFileInfo.channels + j
  · subst hk
    simp only [if_true]
    by_cases h0 : j = 0
    · have hc : channelOut g j =
          fun s => g.leftVolume * (1 - g.wideLeftSliderValue) * s := by
        funext s; simp [channelOut, h0]
      rw [hc, if_pos h0]
      exact set_scaled_getElem? _ _ _
    · by_cases h1 : j = 1
      · have hc : channelOut g j =
            fun s => g.rightVolume * (1 - g.wideRightSliderValue) * s := by
          funext s; simp [channelOut, h1]
        rw [hc, if_neg h0, if_pos h1]
        exact set_scaled_getElem? _ _ _
      · have hc : channelOut g j = fun s => s := by
          funext s; simp [channelOut, h0, h1]
        rw [hc, if_neg h0, if_neg h1]
        cases out[i * g.audioFileInfo.channels + j]? <;> rfl
  · have hk2 : i * g.audioFileInfo.channels + j ≠ k := fun h => hk h.symm
    simp only [hk, if_false]
    split
    · rw [List.getElem?_set_ne hk2]
    · split
      · rw [List.getElem?_set_ne hk2]
      · rfl

theorem scaleSample_length (g : Globals) (i j : Nat) (out : List ℚ) :
    (scaleSample g i j out).length = out.length := by
  unfold scaleSample
  simp only
  split
  · simp
  · split <;> simp

/-- The first `n` channels of frame `i` done: the samples `i*C .. i*C+n-1` are
scaled, every other position is as it was. -/
theorem scaleChannels_getElem? (g : Globals) (i : Nat) (out : List ℚ) (n k : Nat) :
    ((List.range n).foldl (fun o j => scaleSample g i j o) out)[k]? =
      if i * g.audioFileInfo.channels ≤ k ∧ k < i * g.audioFileInfo.channels + n then
        (out[k]?).map (channelOut g (k - i * g.audioFileInfo.channels))
      else out[k]? := by
  induction n with
  | zero =>
    have : ¬(i * g.audioFileInfo.channels ≤ k ∧ k < i * g.audioFileInfo.channels + 0) := by
      omega
    rw [List.range_zero, List.foldl_nil, if_neg this]
  | succ n ih =>
    rw [List.range_succ, List.foldl_append, List.foldl_cons, List.foldl_nil,
      scaleSample_getElem?, ih]
    by_cases hk : k = i * g.audioFileInfo.channels + n
    · have h1 : ¬(i * g.audioFileInfo.channels ≤ k ∧ k < i * g.audioFileInfo.channels + n) := by
        omega
      have h2 : i * g.audioFileInfo.channels ≤ k ∧
          k < i * g.audioFileInfo.channels + (n + 1) := by omega
      have h3 : k - i * g.audioFileInfo.channels = n := by omega
      rw [if_pos hk, if_neg h1, if_pos h2, h3]
    · rw [if_neg hk]
      by_cases h1 : i * g.audioFileInfo.channels ≤ k ∧ k < i * g.audioFileInfo.channels + n
      · have h2 : i * g.audioFileInfo.channels ≤ k ∧
            k < i * g.audioFileInfo.channels + (n + 1) := by omega
        rw [if_pos h1, if_pos h2]
      · have h2 : ¬(i * g.audioFileInfo.channels ≤ k ∧
            k < i * g.audioFileInfo.channels + (n + 1)) := by omega
        rw [if_neg h1, if_neg h2]

theorem scaleFrame_getElem? (g : Globals) (i : Nat) (out : List ℚ) (k : Nat) :
    (scaleFrame g i out)[k]? =
      if i * g.audioFileInfo.channels ≤ k ∧ k < (i + 1) * g.audioFileInfo.channels then
        (out[k]?).map (channelOut g (k % g.audioFileInfo.channels))
      else out[k]? := by
  unfold scaleFrame
  rw [scaleChannels_getElem?]
  have e : (i + 1) * g.audioFileInfo.channels =
      i * g.audioFileInfo.channels + g.audioFileInfo.channels := Nat.succ_mul _ _
  rw [e]
  by_cases h : i * g.audioFileInfo.channels ≤ k ∧
      k < i * g.audioFileInfo.channels + g.audioFileInfo.channels
  · rw [if_pos h, if_pos h]
    have hm : k % g.audioFileInfo.channels = k - i * g.audioFileInfo.channels := by
      obtain ⟨r, hr⟩ : ∃ r, k = g.audioFileInfo.channels * i + r :=
        ⟨k - i * g.audioFileInfo.channels, by rw [Nat.mul_comm]; omega⟩
      have hlt : r < g.audioFileInfo.channels := by
        rw [Nat.mul_comm] at hr; omega
      rw [hr, Nat.mul_add_mod, Nat.mod_eq_of_lt hlt, Nat.mul_comm, Nat.add_sub_cancel_left]
    rw [hm]
  · rw [if_neg h, if_neg h]

/-- After the loops of lines 36-47 over `m` frames, every sample of the first `m`
frames is the decoded sample scaled for its channel `k % C`, and the rest of the
buffer is untouched. -/
theorem scaleFrames_getElem? (g : Globals) (m : Nat) (out : List ℚ) (k : Nat) :
    (scaleFrames g m out)[k]? =
      if k < m * g.audioFileInfo.channels then
        (out[k]?).map (channelOut g (k % g.audioFileInfo.channels))
      else out[k]? := by
  unfold scaleFrames
  induction m with
  | zero => simp
  | succ m ih =>
    rw [List.range_succ, List.foldl_append, List.foldl_cons, List.foldl_nil,
      scaleFrame_getElem?, ih]
    have e : (m + 1) * g.audioFileInfo.channels =
        m * g.audioFileInfo.channels + g.audioFileInfo.channels := Nat.succ_mul _ _
    by_cases h1 : k < m * g.audioFileInfo.channels
    · have h2 : ¬(m * g.audioFileInfo.channels ≤ k ∧
          k < (m + 1) * g.audioFileInfo.channels) := by omega
      have h3 : k < (m + 1) * g.audioFileInfo.channels := by omega
      rw [if_neg h2, if_pos h1, if_pos h3]
    · rw [if_neg h1]
      by_cases h3 : k < (m + 1) * g.audioFileInfo.channels
      · have h2 : m * g.audioFileInfo.channels ≤ k ∧
            k < (m + 1) * g.audioFileInfo.channels := ⟨by omega, h3⟩
        rw [if_pos h2, if_pos h3]
      · have h2 : ¬(m * g.audioFileInfo.channels ≤ k ∧
            k < (m + 1) * g.audioFileInfo.channels) := fun h => h3 h.2
        rw [if_neg h2, if_neg h3]

theorem scaleFrame_length (g : Globals) (i : Nat) (out : List ℚ) :
    (scaleFrame g i out).length = out.length := by
  unfold scaleFrame
  generalize List.range g.audioFileInfo.channels = js
  induction js generalizing out with
  | nil => rfl
  | cons j js ih => rw [List.foldl_cons, ih, scaleSample_length]

theorem scaleFrames_length (g : Globals) (m : Nat) (out : List ℚ) :
    (scaleFrames g m out).length = out.length := by
  unfold scaleFrames
  generalize List.range m = is
  induction is generalizing out with
  | nil => rfl
  | cons i is ih => rw [List.foldl_cons, ih, scaleFrame_length]

/-! ## The callback on an open decoder -/

theorem toUInt64_natCast (n : Nat) (h : n < 18446744073709551616) :
    toUInt64 (n : Int) = n := by
  unfold toUInt64
  omega

theorem sf_readf_float_le (f : SNDFILE) (n : Nat) : (sf_readf_float f n).1 ≤ n := by
  unfold sf_readf_float
  exact Nat.min_le_left _ _

/-- The samples a read delivers are as many as the frames it reports. -/
theorem sf_readf_float_length (f : SNDFILE) (n : Nat) :
    (sf_readf_float f n).2.1.length = (sf_readf_float f n).1 * f.channels := by
  unfold sf_readf_float
  simp only [List.length_take]
  apply Nat.min_eq_left
  calc min n (f.pending.length / f.channels) * f.channels
      ≤ f.pending.length / f.channels * f.channels :=
        Nat.mul_le_mul_right _ (Nat.min_le_right _ _)
    _ ≤ f.pending.length := Nat.div_mul_le_self _ _

/-- With the decoder handle pointing at an open decoder the callback returns, and
this is what it returns: the code by the comparison of line 56, the buffer the
gain loops leave, and the history with the first `framesRead * channels` entries
of that buffer appended. -/
theorem audioCallback_open (g : Globals) (outputBuffer : List ℚ) (frameCount p : Nat)
    (f : SNDFILE) (hp : g.audioFile = some p) (hf : lookupFile g.sndfiles p = some f) :
    ∃ out g2,
      audioCallback g outputBuffer frameCount =
        some (if toUInt64 ((sf_readf_float f frameCount).1 : Nat) < frameCount
              then paComplete else paContinue, out, g2) ∧
      out = scaleFrames g (sf_readf_float f frameCount).1
        ((sf_readf_float f frameCount).2.1 ++
          outputBuffer.drop (sf_readf_float f frameCount).2.1.length) ∧
      g2.audioData = g.audioData ++
        out.take ((sf_readf_float f frameCount).1 * g.audioFileInfo.channels) ∧
      g2.sndfiles = storeFile g.sndfiles f (sf_readf_float f frameCount).2.2 ∧
      g2.audioFile = g.audioFile ∧ g2.audioFileInfo = g.audioFileInfo ∧
      g2.audioStream = g.audioStream ∧ g2.streams = g.streams ∧
      g2.leftVolume = g.leftVolume ∧ g2.rightVolume = g.rightVolume ∧
      g2.wideLeftSliderValue = g.wideLeftSliderValue ∧
      g2.wideRightSliderValue = g.wideRightSliderValue := by
  unfold audioCallback
  simp only [hp, hf]
  by_cases hm : ((sf_readf_float f frameCount).1 : Int) > 0
  · simp only [hm, if_true]
    split <;> exact ⟨_, _, rfl, rfl, rfl, rfl, rfl, rfl, rfl, rfl, rfl, rfl, rfl, rfl⟩
  · have h0 : (sf_readf_float f frameCount).1 = 0 := by omega
    simp only [hm, if_false]
    split <;>
      exact ⟨_, _, rfl, by simp [h0, scaleFrames], by simp [h0], rfl, rfl, rfl, rfl, rfl,
        rfl, rfl, rfl, rfl⟩

/-- Entry `k` of the buffer after the callback, for `k` inside the frames read:
the sample the decoder held at position `k`, scaled for channel `k % C`. -/
theorem scaled_block_getElem? (g : Globals) (outputBuffer : List ℚ) (frameCount : Nat)
    (f : SNDFILE) (hc : f.channels = g.audioFileInfo.channels) (k : Nat)
    (hk : k < (sf_readf_float f frameCount).1 * g.audioFileInfo.channels) :
    (scaleFrames g (sf_readf_float f frameCount).1
        ((sf_readf_float f frameCount).2.1 ++
          outputBuffer.drop (sf_readf_float f frameCount).2.1.length))[k]? =
      (f.pending[k]?).map (channelOut g (k % g.audioFileInfo.channels)) := by
  rw [scaleFrames_getElem?, if_pos hk]
  have hl := sf_readf_float_length f frameCount
  rw [hc] at hl
  rw [List.getElem?_append_left (by omega)]
  congr 1
  have : (sf_readf_float f frameCount).2.1 =
      f.pending.take ((sf_readf_float f frameCount).1 * g.audioFileInfo.channels) := by
    rw [← hc]; rfl
  rw [this, List.getElem?_take_of_lt hk]

theorem sf_readf_float_mul_le (f : SNDFILE) (n : Nat) :
    (sf_readf_float f n).1 * f.channels ≤ f.pending.length := by
  unfold sf_readf_float
  calc min n (f.pending.length / f.channels) * f.channels
      ≤ f.pending.length / f.channels * f.channels :=
        Nat.mul_le_mul_right _ (Nat.min_le_right _ _)
    _ ≤ f.pending.length := Nat.div_mul_le_self _ _

/-! ## Claims about the callback -/

/-- C1: on an open decoder whose channel count is the one in `audioFileInfo`, the
callback returns, and for every frame `i` it read the output sample of channel 0 is
`s * leftVolume * (1 - wideLeftSliderValue)` and, when the file has a second
channel, the output sample of channel 1 is
`s * rightVolume * (1 - wideRightSliderValue)`, `s` being the sample the decoder
delivered at that position; over the rationals, for all gains and widths, those in
[0,2] and [0,1] included. -/
theorem audioCallback_channel_gain (g : Globals) (outputBuffer : List ℚ)
    (frameCount p : Nat) (f : SNDFILE)
    (hp : g.audioFile = some p) (hf : lookupFile g.sndfiles p = some f)
    (hc : f.channels = g.audioFileInfo.channels) :
    ∃ code out g2,
      audioCallback g outputBuffer frameCount = some (code, out, g2) ∧
      ∀ i, i < (sf_readf_float f frameCount).1 →
        (∃ s, f.pending[i * g.audioFileInfo.channels]? = some s ∧
          out[i * g.audioFileInfo.channels]? =
            some (s * g.leftVolume * (1 - g.wideLeftSliderValue))) ∧
        (1 < g.audioFileInfo.channels →
          ∃ s, f.pending[i * g.audioFileInfo.channels + 1]? = some s ∧
            out[i * g.audioFileInfo.channels + 1]? =
              some (s * g.rightVolume * (1 - g.wideRightSliderValue))) := by
  obtain ⟨out, g2, hcall, hout, -⟩ := audioCallback_open g outputBuffer frameCount p f hp hf
  refine ⟨_, out, g2, hcall, ?_⟩
  intro i hi
  have hle := sf_readf_float_mul_le f frameCount
  rw [hc] at hle
  have hmul : (i + 1) * g.audioFileInfo.channels ≤
      (sf_readf_float f frameCount).1 * g.audioFileInfo.channels :=
    Nat.mul_le_mul_right _ hi
  rw [Nat.succ_mul] at hmul
  have hpos : 0 < g.audioFileInfo.channels := by
    rcases Nat.eq_zero_or_pos g.audioFileInfo.channels with h0 | h0
    · rw [h0, Nat.mul_zero] at hle
      have : (sf_readf_float f frameCount).1 = 0 := by
        unfold sf_readf_float
        simp [hc, h0]
      omega
    · exact h0
  constructor
  · have hk : i * g.audioFileInfo.channels <
        (sf_readf_float f frameCount).1 * g.audioFileInfo.channels := by omega
    have hlt : i * g.audioFileInfo.channels < f.pending.length := by omega
    refine ⟨f.pending[i * g.audioFileInfo.channels], List.getElem?_eq_getElem hlt, ?_⟩
    rw [hout, scaled_block_getElem? g outputBuffer frameCount f hc _ hk,
      List.getElem?_eq_getElem hlt, Nat.mul_mod_left]
    simp only [Option.map_some', channelOut, if_true]
    congr 1
    ring
  · intro h1
    have hk : i * g.audioFileInfo.channels + 1 <
        (sf_readf_float f frameCount).1 * g.audioFileInfo.channels := by omega
    have hlt : i * g.audioFileInfo.channels + 1 < f.pending.length := by omega
    refine ⟨f.pending[i * g.audioFileInfo.channels + 1], List.getElem?_eq_getElem hlt, ?_⟩
    have hmod : (i * g.audioFileInfo.channels + 1) % g.audioFileInfo.channels = 1 := by
      rw [Nat.mul_comm, Nat.mul_add_mod, Nat.mod_eq_of_lt h1]
    rw [hout, scaled_block_getElem? g outputBuffer frameCount f hc _ hk,
      List.getElem?_eq_getElem hlt, hmod]
    simp only [Option.map_some', channelOut]
    congr 1
    simp only [show (1 : Nat) ≠ 0 by decide, if_false, if_true]
    ring

/-- The instance of C1 at `stereoSession`: one frame `(1, 1)`, gain 1.0, width 0.5. -/
theorem audioCallback_channel_gain_witness :
    stereoSession.audioFile = some 1 ∧
    lookupFile stereoSession.sndfiles 1 = some ⟨1, 2, [1, 1]⟩ ∧
    (⟨1, 2, [1, 1]⟩ : SNDFILE).channels = stereoSession.audioFileInfo.channels ∧
    ∃ code out g2,
      audioCallback stereoSession [0, 0] 1 = some (code, out, g2) ∧
      ∀ i, i < (sf_readf_float ⟨1, 2, [1, 1]⟩ 1).1 →
        (∃ s, (⟨1, 2, [1, 1]⟩ : SNDFILE).pending[i * stereoSession.audioFileInfo.channels]?
            = some s ∧
          out[i * stereoSession.audioFileInfo.channels]? =
            some (s * stereoSession.leftVolume * (1 - stereoSession.wideLeftSliderValue))) ∧
        (1 < stereoSession.audioFileInfo.channels →
          ∃ s, (⟨1, 2, [1, 1]⟩ : SNDFILE).pending[
              i * stereoSession.audioFileInfo.channels + 1]? = some s ∧
            out[i * stereoSession.audioFileInfo.channels + 1]? =
              some (s * stereoSession.rightVolume *
                (1 - stereoSession.wideRightSliderValue))) :=
  ⟨rfl, rfl, rfl,
    audioCallback_channel_gain stereoSession [0, 0] 1 1 ⟨1, 2, [1, 1]⟩ rfl rfl rfl⟩

/-- The example of the specification: gain 1.0, width 0.5 and an input sample 1.0
give the output sample 0.5, on both channels. -/
theorem audioCallback_example_half :
    (audioCallback stereoSession [0, 0] 1).map (fun r => (r.1, r.2.1)) =
      some (paContinue, [1 / 2, 1 / 2]) := by
  norm_num [audioCallback, stereoSession, Globals.initial, lookupFile, sf_readf_float,
    scaleFrames, scaleFrame, scaleSample, storeFile, toUInt64, paContinue, List.range,
    List.range.loop]

/-- C9: on an open decoder, for every frame `i` read and every channel `j` of the
file with `2 ≤ j` (the file then has more than two channels), the output sample
is the sample the decoder delivered, whatever the two gains and the two widths
are. -/
theorem audioCallback_upper_channels_unchanged (g : Globals) (outputBuffer : List ℚ)
    (frameCount p : Nat) (f : SNDFILE)
    (hp : g.audioFile = some p) (hf : lookupFile g.sndfiles p = some f)
    (hc : f.channels = g.audioFileInfo.channels) :
    ∃ code out g2,
      audioCallback g outputBuffer frameCount = some (code, out, g2) ∧
      ∀ i j, i < (sf_readf_float f frameCount).1 → 2 ≤ j → j < g.audioFileInfo.channels →
        ∃ s, f.pending[i * g.audioFileInfo.channels + j]? = some s ∧
          out[i * g.audioFileInfo.channels + j]? = some s := by
  obtain ⟨out, g2, hcall, hout, -⟩ := audioCallback_open g outputBuffer frameCount p f hp hf
  refine ⟨_, out, g2, hcall, ?_⟩
  intro i j hi hj2 hjc
  have hle := sf_readf_float_mul_le f frameCount
  rw [hc] at hle
  have hmul : (i + 1) * g.audioFileInfo.channels ≤
      (sf_readf_float f frameCount).1 * g.audioFileInfo.channels :=
    Nat.mul_le_mul_right _ hi
  rw [Nat.succ_mul] at hmul
  have hk : i * g.audioFileInfo.channels + j <
      (sf_readf_float f frameCount).1 * g.audioFileInfo.channels := by omega
  have hlt : i * g.audioFileInfo.channels + j < f.pending.length := by omega
  refine ⟨f.pending[i * g.audioFileInfo.channels + j], List.getElem?_eq_getElem hlt, ?_⟩
  have hmod : (i * g.audioFileInfo.channels + j) % g.audioFileInfo.channels = j := by
    rw [Nat.mul_comm, Nat.mul_add_mod, Nat.mod_eq_of_lt hjc]
  rw [hout, scaled_block_getElem? g outputBuffer frameCount f hc _ hk,
    List.getElem?_eq_getElem hlt, hmod]
  have h0 : j ≠ 0 := by omega
  have h1 : j ≠ 1 := by omega
  simp only [Option.map_some', channelOut, h0, h1, if_false]

/-- The instance of C9 at `quadSession`, a four-channel file. -/
theorem audioCallback_upper_channels_unchanged_witness :
    quadSession.audioFile = some 1 ∧
    lookupFile quadSession.sndfiles 1 = some ⟨1, 4, [1, 2, 3, 4, 5, 6, 7, 8]⟩ ∧
    (⟨1, 4, [1, 2, 3, 4, 5, 6, 7, 8]⟩ : SNDFILE).channels =
      quadSession.audioFileInfo.channels ∧
    ∃ code out g2,
      audioCallback quadSession [] 256 = some (code, out, g2) ∧
      ∀ i j, i < (sf_readf_float ⟨1, 4, [1, 2, 3, 4, 5, 6, 7, 8]⟩ 256).1 → 2 ≤ j →
        j < quadSession.audioFileInfo.channels →
        ∃ s, (⟨1, 4, [1, 2, 3, 4, 5, 6, 7, 8]⟩ : SNDFILE).pending[
            i * quadSession.audioFileInfo.channels + j]? = some s ∧
          out[i * quadSession.audioFileInfo.channels + j]? = some s :=
  ⟨rfl, rfl, rfl,
    audioCallback_upper_channels_unchanged quadSession [] 256 1
      ⟨1, 4, [1, 2, 3, 4, 5, 6, 7, 8]⟩ rfl rfl rfl⟩

/-- The four-channel session evaluated: channels 2 and 3 come out as decoded. -/
theorem audioCallback_example_quad :
    (audioCallback quadSession [] 256).map (fun r => (r.1, r.2.1)) =
      some (paComplete, [1 / 2, 1, 3, 4, 5 / 2, 3, 7, 8]) := by
  norm_num [audioCallback, quadSession, Globals.initial, lookupFile, sf_readf_float,
    scaleFrames, scaleFrame, scaleSample, storeFile, toUInt64, paComplete, List.range,
    List.range.loop]

/-- C3: the return code of the callback for a request of `frameCount` frames, a
count that `sf_count_t` holds.  With a null decoder handle it is `paAbort` and
nothing else changes.  With the handle on an open decoder that delivers `M`
frames, `M` is at most `frameCount`, the code is `paComplete` when
`M < frameCount` (also when `M = 0`) and `paContinue` when `M = frameCount`. -/
theorem audioCallback_result (g : Globals) (outputBuffer : List ℚ) (frameCount : Nat)
    (hN : frameCount < 9223372036854775808) :
    (g.audioFile = none →
      audioCallback g outputBuffer frameCount = some (paAbort, outputBuffer, g)) ∧
    (∀ p f, g.audioFile = some p → lookupFile g.sndfiles p = some f →
      (sf_readf_float f frameCount).1 ≤ frameCount ∧
      ((sf_readf_float f frameCount).1 < frameCount →
        ∃ out g2, audioCallback g outputBuffer frameCount = some (paComplete, out, g2)) ∧
      ((sf_readf_float f frameCount).1 = frameCount →
        ∃ out g2, audioCallback g outputBuffer frameCount = some (paContinue, out, g2))) := by
  constructor
  · intro h
    unfold audioCallback
    rw [h]
  · intro p f hp hf
    obtain ⟨out, g2, hcall, -⟩ := audioCallback_open g outputBuffer frameCount p f hp hf
    have hle := sf_readf_float_le f frameCount
    rw [toUInt64_natCast _ (by omega)] at hcall
    refine ⟨hle, fun hlt => ⟨out, g2, ?_⟩, fun heq => ⟨out, g2, ?_⟩⟩
    · rw [hcall, if_pos hlt]
    · rw [hcall, if_neg (by omega)]

/-- The three cases of C3 at concrete states: no decoder, a decoder with two
frames left for a request of 256, a decoder with one frame left for a request
of one. -/
theorem audioCallback_result_witness :
    (256 : Nat) < 9223372036854775808 ∧
    audioCallback Globals.initial [] 256 = some (paAbort, [], Globals.initial) ∧
    (∃ out g2, audioCallback quadSession [] 256 = some (paComplete, out, g2)) ∧
    (∃ out g2, audioCallback stereoSession [0, 0] 1 = some (paContinue, out, g2)) :=
  ⟨by decide,
    (audioCallback_result Globals.initial [] 256 (by decide)).1 rfl,
    ((audioCallback_result quadSession [] 256 (by decide)).2 1
      ⟨1, 4, [1, 2, 3, 4, 5, 6, 7, 8]⟩ rfl rfl).2.1 (by decide),
    ((audioCallback_result stereoSession [0, 0] 1 (by decide)).2 1
      ⟨1, 2, [1, 1]⟩ rfl rfl).2.2 (by decide)⟩

/-- The frames read, once the gain loops are through, are the processed block. -/
theorem scaled_block_eq (g : Globals) (outputBuffer : List ℚ) (frameCount : Nat)
    (f : SNDFILE) (hc : f.channels = g.audioFileInfo.channels) :
    (scaleFrames g (sf_readf_float f frameCount).1
        ((sf_readf_float f frameCount).2.1 ++
          outputBuffer.drop (sf_readf_float f frameCount).2.1.length)).take
        ((sf_readf_float f frameCount).1 * g.audioFileInfo.channels) =
      processedBlock g (sf_readf_float f frameCount).2.1 := by
  have hlen := sf_readf_float_length f frameCount
  rw [hc] at hlen
  apply List.ext_getElem?
  intro k
  unfold processedBlock
  rw [List.getElem?_mapIdx, List.getElem?_take]
  by_cases hk : k < (sf_readf_float f frameCount).1 * g.audioFileInfo.channels
  · rw [if_pos hk, scaled_block_getElem? g outputBuffer frameCount f hc k hk]
    have : (sf_readf_float f frameCount).2.1 =
        f.pending.take ((sf_readf_float f frameCount).1 * g.audioFileInfo.channels) := by
      rw [← hc]; rfl
    rw [this, List.getElem?_take_of_lt hk]
  · rw [if_neg hk]
    have : (sf_readf_float f frameCount).2.1[k]? = none :=
      List.getElem?_eq_none_iff.mpr (by omega)
    rw [this]
    rfl

/-- C4: for every prior history `H = g.audioData`, a callback on an open decoder
that reads `M` frames of `C` channels leaves `audioData` equal to `H` followed by
the `M * C` delivered samples, each scaled for its channel, in the decoder's
interleaved order; `H` is an unchanged prefix and the length grows by `M * C`.
As `H` is arbitrary, the blocks of successive callbacks follow one another in
call order. -/
theorem audioCallback_appends_block (g : Globals) (outputBuffer : List ℚ)
    (frameCount p : Nat) (f : SNDFILE)
    (hp : g.audioFile = some p) (hf : lookupFile g.sndfiles p = some f)
    (hc : f.channels = g.audioFileInfo.channels) :
    ∃ code out g2,
      audioCallback g outputBuffer frameCount = some (code, out, g2) ∧
      g2.audioData = g.audioData ++ processedBlock g (sf_readf_float f frameCount).2.1 ∧
      g2.audioData.length =
        g.audioData.length + (sf_readf_float f frameCount).1 * g.audioFileInfo.channels ∧
      g2.audioData.take g.audioData.length = g.audioData ∧
      out.take ((sf_readf_float f frameCount).1 * g.audioFileInfo.channels) =
        processedBlock g (sf_readf_float f frameCount).2.1 := by
  obtain ⟨out, g2, hcall, hout, hdata, -⟩ :=
    audioCallback_open g outputBuffer frameCount p f hp hf
  have hlen := sf_readf_float_length f frameCount
  rw [hc] at hlen
  have hblock : out.take ((sf_readf_float f frameCount).1 * g.audioFileInfo.channels) =
      processedBlock g (sf_readf_float f frameCount).2.1 := by
    rw [hout]
    exact scaled_block_eq g outputBuffer frameCount f hc
  refine ⟨_, out, g2, hcall, ?_, ?_, ?_, hblock⟩
  · rw [hdata, hblock]
  · rw [hdata, hblock, List.length_append]
    unfold processedBlock
    rw [List.length_mapIdx, hlen]
  · rw [hdata, List.take_left']
    rfl

/-- The instance of C4 at `quadSessionPlayed`, where the history already holds
two samples. -/
theorem audioCallback_appends_block_witness :
    quadSessionPlayed.audioFile = some 1 ∧
    lookupFile quadSessionPlayed.sndfiles 1 = some ⟨1, 4, [1, 2, 3, 4, 5, 6, 7, 8]⟩ ∧
    (⟨1, 4, [1, 2, 3, 4, 5, 6, 7, 8]⟩ : SNDFILE).channels =
      quadSessionPlayed.audioFileInfo.channels ∧
    ∃ code out g2,
      audioCallback quadSessionPlayed [] 256 = some (code, out, g2) ∧
      g2.audioData = quadSessionPlayed.audioData ++
        processedBlock quadSessionPlayed
          (sf_readf_float ⟨1, 4, [1, 2, 3, 4, 5, 6, 7, 8]⟩ 256).2.1 ∧
      g2.audioData.length =
        quadSessionPlayed.audioData.length +
          (sf_readf_float ⟨1, 4, [1, 2, 3, 4, 5, 6, 7, 8]⟩ 256).1 *
            quadSessionPlayed.audioFileInfo.channels ∧
      g2.audioData.take quadSessionPlayed.audioData.length = quadSessionPlayed.audioData ∧
      out.take ((sf_readf_float ⟨1, 4, [1, 2, 3, 4, 5, 6, 7, 8]⟩ 256).1 *
          quadSessionPlayed.audioFileInfo.channels) =
        processedBlock quadSessionPlayed
          (sf_readf_float ⟨1, 4, [1, 2, 3, 4, 5, 6, 7, 8]⟩ 256).2.1 :=
  ⟨rfl, rfl, rfl,
    audioCallback_appends_block quadSessionPlayed [] 256 1
      ⟨1, 4, [1, 2, 3, 4, 5, 6, 7, 8]⟩ rfl rfl rfl⟩

/-- The history of `quadSessionPlayed` after one callback: the two old samples,
then the two frames in order, channels 0 and 1 halved. -/
theorem audioCallback_example_history :
    (audioCallback quadSessionPlayed [] 256).map (fun r => r.2.2.audioData) =
      some [9, 9, 1 / 2, 1, 3, 4, 5 / 2, 3, 7, 8] := by
  norm_num [audioCallback, quadSessionPlayed, quadSession, Globals.initial, lookupFile,
    sf_readf_float, scaleFrames, scaleFrame, scaleSample, storeFile, toUInt64, List.range,
    List.range.loop]

/-- The decoder a read advanced is the one the handle finds at the next call. -/
theorem lookupFile_storeFile (files : List SNDFILE) (p : Nat) (f f2 : SNDFILE)
    (hf : lookupFile files p = some f) (haddr : f2.addr = f.addr) :
    lookupFile (storeFile files f f2) p = some f2 := by
  unfold lookupFile storeFile at *
  have hfp : f.addr = p := by
    have := List.find?_some hf
    simpa using this
  induction files with
  | nil => simp at hf
  | cons x xs ih =>
    by_cases hx : x.addr = p
    · simp [List.find?_cons, hx, hfp, haddr]
    · have hx2 : ¬x.addr = f.addr := by rw [hfp]; exact hx
      have hf2 : List.find? (fun f => f.addr == p) xs = some f := by
        simpa [List.find?_cons, hx] using hf
      have hxb : (x.addr == p) = false := by simpa using hx
      have hxf : (x.addr == f.addr) = false := by simpa using hx2
      simp only [List.map_cons, hxf, Bool.false_eq_true, if_false, List.find?_cons, hxb]
      exact ih hf2

/-- Two callbacks in a row: the history afterwards is the history before, then
the block of the first call, then the block of the second, which is decoded from
where the first read stopped. -/
theorem audioCallback_twice (g : Globals) (buffer1 buffer2 : List ℚ)
    (frameCount1 frameCount2 p : Nat) (f : SNDFILE)
    (hp : g.audioFile = some p) (hf : lookupFile g.sndfiles p = some f)
    (hc : f.channels = g.audioFileInfo.channels) :
    ∃ code1 out1 g1 code2 out2 g2,
      audioCallback g buffer1 frameCount1 = some (code1, out1, g1) ∧
      audioCallback g1 buffer2 frameCount2 = some (code2, out2, g2) ∧
      g2.audioData = g.audioData ++
        processedBlock g (sf_readf_float f frameCount1).2.1 ++
        processedBlock g
          (sf_readf_float (sf_readf_float f frameCount1).2.2 frameCount2).2.1 := by
  obtain ⟨out1, g1, hcall1, hout1, hdata1, hfiles1, hfile1, hinfo1, -, -, hl, hr, hwl, hwr⟩ :=
    audioCallback_open g buffer1 frameCount1 p f hp hf
  have hp1 : g1.audioFile = some p := by rw [hfile1, hp]
  have hf1 : lookupFile g1.sndfiles p = some (sf_readf_float f frameCount1).2.2 := by
    rw [hfiles1]
    exact lookupFile_storeFile g.sndfiles p f _ hf rfl
  have hc1 : (sf_readf_float f frameCount1).2.2.channels = g1.audioFileInfo.channels := by
    rw [hinfo1, ← hc]
    rfl
  obtain ⟨out2, g2, hcall2, hout2, hdata2, -⟩ :=
    audioCallback_open g1 buffer2 frameCount2 p _ hp1 hf1
  refine ⟨_, out1, g1, _, out2, g2, hcall1, hcall2, ?_⟩
  have hsame : ∀ l, processedBlock g1 l = processedBlock g l := by
    intro l
    unfold processedBlock channelOut
    rw [hinfo1, hl, hr, hwl, hwr]
  rw [hdata2, hout2, scaled_block_eq g1 buffer2 frameCount2 _ hc1, hdata1, hout1,
    scaled_block_eq g buffer1 frameCount1 f hc, hsame]

/-! ## The sampling loop -/

/-- One failing read anywhere in the remaining iterations makes the loop fail. -/
theorem sampleLoop_eq_none (audioData : List ℚ) (w : Int) (n i0 i : Nat)
    (h0 : i0 ≤ i) (h1 : i < i0 + n)
    (hbad : sampleAt audioData (dataIndex i audioData.length w) = none) :
    sampleLoop audioData w n i0 = none := by
  induction n generalizing i0 with
  | zero => omega
  | succ n ih =>
    unfold sampleLoop
    by_cases hi : i = i0
    · subst hi
      rw [hbad]
    · cases sampleAt audioData (dataIndex i0 audioData.length w) with
      | none => rfl
      | some v =>
        simp only
        rw [ih (i0 + 1) (by omega) (by omega)]
        rfl

/-- When every read of the remaining iterations succeeds, the loop yields the
values read, in iteration order. -/
theorem sampleLoop_eq_some (audioData : List ℚ) (w : Int) (v : Nat → ℚ) (n i0 : Nat)
    (hok : ∀ i, i0 ≤ i → i < i0 + n →
      sampleAt audioData (dataIndex i audioData.length w) = some (v i)) :
    sampleLoop audioData w n i0 = some ((List.range n).map (fun k => v (i0 + k))) := by
  induction n generalizing i0 with
  | zero => rfl
  | succ n ih =>
    unfold sampleLoop
    rw [hok i0 (Nat.le_refl _) (by omega)]
    simp only
    rw [ih (i0 + 1) (fun i h0 h1 => hok i (by omega) (by omega))]
    simp only [Option.map_some', List.range_succ_eq_map, List.map_cons, List.map_map,
      Nat.add_zero]
    congr 2
    apply List.map_congr_left
    intro k _
    simp only [Function.comp, Nat.succ_eq_add_one]
    congr 1
    omega

/-- While the history has at most `2^31` samples, the index of line 78 is the
truncated quotient `i * L / w`, and it is inside the history. -/
theorem dataIndex_in_range (i L w : Nat) (hw : i < w) (hwmax : w ≤ 2147483647)
    (hLpos : 0 < L) (hL : L ≤ 2147483648) :
    dataIndex i L w = ((i * L / w : Nat) : Int) ∧ i * L / w < L := by
  have hq : i * L / w < L := by
    apply Nat.div_lt_of_lt_mul
    exact Nat.mul_lt_mul_of_pos_right hw hLpos
  have hprod : i * L < 18446744073709551616 := by
    have h1 : i * L ≤ 2147483647 * 2147483648 :=
      Nat.mul_le_mul (by omega) hL
    omega
  have hi : toUInt64 (i : Int) = i := toUInt64_natCast i (by omega)
  have hw2 : toUInt64 (w : Int) = w := toUInt64_natCast w (by omega)
  refine ⟨?_, hq⟩
  unfold dataIndex
  rw [hi, hw2, Nat.mod_eq_of_lt hprod]
  unfold toInt32
  have hq2 : i * L / w < 2147483648 := by omega
  rw [Nat.mod_eq_of_lt (by omega), if_pos hq2]

/-- While the history is non-empty and has at most `2^31` samples, the loop of
`onDraw` yields exactly `waveformWidth` values, the `i`-th being the sample at the
truncated quotient `i * L / waveformWidth`: no interpolation, no averaging. -/
theorem renderWindow_decimates (g : Globals) (hne : g.audioData ≠ [])
    (hw : 0 < g.waveformWidth) (hwmax : g.waveformWidth ≤ 2147483647)
    (hL : g.audioData.length ≤ 2147483648) :
    renderWindow g =
      some ((List.range g.waveformWidth.toNat).map (fun i =>
        g.audioData.getD (i * g.audioData.length / g.waveformWidth.toNat) 0)) ∧
    ∀ i, i < g.waveformWidth.toNat →
      i * g.audioData.length / g.waveformWidth.toNat < g.audioData.length := by
  have hLpos : 0 < g.audioData.length := List.length_pos.mpr hne
  obtain ⟨w, hwe⟩ : ∃ w : Nat, g.waveformWidth = (w : Int) :=
    ⟨g.waveformWidth.toNat, (Int.toNat_of_nonneg (by omega)).symm⟩
  have hwn : g.waveformWidth.toNat = w := by rw [hwe]; rfl
  have hwmax2 : w ≤ 2147483647 := by omega
  constructor
  · unfold renderWindow
    have hemp : g.audioData.isEmpty = false := by
      cases h : g.audioData with
      | nil => exact absurd h hne
      | cons a l => rfl
    rw [hemp]
    simp only [Bool.false_eq_true, if_false]
    have := sampleLoop_eq_some g.audioData g.waveformWidth
      (fun i => g.audioData.getD (i * g.audioData.length / g.waveformWidth.toNat) 0)
      g.waveformWidth.toNat 0 (by
        intro i _ hi
        rw [hwn] at hi ⊢
        rw [Nat.zero_add] at hi
        obtain ⟨hidx, hlt⟩ := dataIndex_in_range i g.audioData.length w hi hwmax2 hLpos hL
        rw [hwe, hidx]
        unfold sampleAt
        rw [toUInt64_natCast _ (by omega)]
        simp only [List.getD_eq_getElem?_getD, List.getElem?_eq_getElem hlt,
          Option.getD_some])
    rw [this]
    simp only [Nat.zero_add]
  · intro i hi
    rw [hwn] at hi ⊢
    exact (dataIndex_in_range i g.audioData.length w hi hwmax2 hLpos hL).2

/-- The example of the specification: a window of width 4 over the history
`[0,1,2,3,4,5,6,7]` is `[0,2,4,6]`. -/
theorem renderWindow_example :
    renderWindow { Globals.initial with
      audioData := [0, 1, 2, 3, 4, 5, 6, 7], waveformWidth := 4 } = some [0, 2, 4, 6] := by
  decide

/-- C2, at the failing input: over a history of 2150171363 samples and the
program's width 800 the claim's last value is the sample at
`799 * 2150171363 / 800 = 2^31`, which exists; the loop of `onDraw` reads outside
the vector instead and yields no list of 800 values. -/
theorem renderWindow_long_history_fails :
    799 * longHistory.length / 800 = 2147483648 ∧
    longHistory[799 * longHistory.length / 800]? = some 0 ∧
    renderWindow { Globals.initial with audioData := longHistory } = none := by
  have hlen : longHistory.length = 2150171363 := List.length_replicate _ _
  refine ⟨by rw [hlen], ?_, ?_⟩
  · rw [hlen]
    unfold longHistory
    rw [List.getElem?_replicate, if_pos (by norm_num)]
  · unfold renderWindow
    have hemp : ({ Globals.initial with audioData := longHistory } : Globals).audioData.isEmpty
        = false := by
      show longHistory.isEmpty = false
      rw [List.isEmpty_eq_false_iff_exists_mem]
      exact ⟨0, by unfold longHistory; rw [List.mem_replicate]; exact ⟨by norm_num, rfl⟩⟩
    rw [hemp]
    simp only [Bool.false_eq_true, if_false]
    apply sampleLoop_eq_none _ _ _ 0 799 (Nat.zero_le _) (by decide)
    show sampleAt longHistory (dataIndex 799 longHistory.length 800) = none
    rw [hlen]
    have hidx : dataIndex 799 2150171363 800 = -2147483648 := by decide
    rw [hidx]
    unfold sampleAt
    have hu : toUInt64 (-2147483648) = 18446744071562067968 := by decide
    rw [hu]
    unfold longHistory
    rw [List.getElem?_replicate, if_neg (by norm_num)]

/-- C10, at the failing input: with 2150171363 samples in the history and the
program's width 800, the index computed for `i = 799` is `-2^31`, not a value in
`0 .. L-1`; converted to the subscript type it is far past the end of the vector.
With one sample fewer the same index is `2^31 - 1`, inside the history. -/
theorem dataIndex_wraps_negative :
    dataIndex 799 2150171363 800 = -2147483648 ∧
    ¬(0 ≤ dataIndex 799 2150171363 800 ∧ dataIndex 799 2150171363 800 < 2150171363) ∧
    toUInt64 (dataIndex 799 2150171363 800) = 18446744071562067968 ∧
    dataIndex 799 2150171362 800 = 2147483647 := by
  decide

/-- C8 as stated fails: with nothing in `audioData` and the program's width 800,
the loop yields no values, not 800 zeros. -/
theorem renderWindow_empty_not_zeros :
    renderWindow Globals.initial = some [] ∧
    renderWindow Globals.initial ≠ some (List.replicate 800 0) := by
  constructor
  · rfl
  · intro h
    have h2 : renderWindow Globals.initial = some [] := rfl
    rw [h2] at h
    have h3 := congrArg List.length (Option.some.inj h)
    rw [List.length_replicate, List.length_nil] at h3
    exact absurd h3 (by decide)

/-- C8, amended: for every width, with an empty history the guard of line 72
skips the loop, so no value is sampled and nothing is added to the path; only the
background is painted. -/
theorem renderWindow_empty (g : Globals) (hempty : g.audioData = []) :
    renderWindow g = some [] ∧ onDraw g = some [] := by
  unfold onDraw renderWindow
  rw [hempty]
  exact ⟨rfl, rfl⟩

/-- The instance of the amended C8 at the program's initial state. -/
theorem renderWindow_empty_witness :
    Globals.initial.audioData = [] ∧
    renderWindow Globals.initial = some [] ∧ onDraw Globals.initial = some [] :=
  ⟨rfl, renderWindow_empty Globals.initial rfl⟩

/-! ## Opening a file -/

theorem fsDemo_a : fsDemo "a.wav" = .decoded ⟨2, 44100⟩ [1, 1] := by
  unfold fsDemo
  rw [if_pos rfl]

theorem fsDemo_b : fsDemo "b.wav" = .decoded ⟨1, 8000⟩ [3, 4, 5] := by
  unfold fsDemo
  rw [if_neg (by decide), if_pos rfl]

theorem fsDemo_notes : fsDemo "notes.txt" = .failed none := by
  unfold fsDemo
  rw [if_neg (by decide), if_neg (by decide)]

/-- The trace ends in the state `openAudioFile` returns. -/
theorem openAudioFileTrace_getLast (fs : String → OpenOutcome) (accepted : Bool)
    (selectedFile : Option String) (g : Globals) :
    (openAudioFileTrace fs accepted selectedFile g).getLast? =
      some (openAudioFile fs accepted selectedFile g) := by
  unfold openAudioFileTrace openAudioFile
  cases accepted with
  | false => rfl
  | true =>
    cases selectedFile with
    | none => rfl
    | some path =>
      simp only [if_true]
      cases hg : g.audioFile with
      | none =>
        simp only [List.getLastD_nil, List.nil_append]
        cases h2 : (sf_open (fs path) g).audioFile with
        | none => simp
        | some p2 =>
          cases h3 : (sf_open (fs path) g).audioStream <;> simp
      | some p =>
        simp only [List.getLastD_cons, List.getLastD_nil]
        cases h2 : (sf_open (fs path) (clearAudioFile (closeAudioFile g p))).audioFile with
        | none => simp
        | some p2 =>
          cases h3 : (sf_open (fs path) (clearAudioFile (closeAudioFile g p))).audioStream
            <;> simp

/-- Opening a decodable file on a running session: the old decoder and the old
stream are released, the new decoder and a new running stream are the only ones
left, and `audioData` is what it was. -/
theorem openAudioFile_switch (fs : String → OpenOutcome) (path : String)
    (info : SF_INFO) (samples : List ℚ) (g : Globals) (f : SNDFILE) (st : PaStream)
    (hs : OneSession g f st) (hfs : fs path = .decoded info samples) :
    OneSession (openAudioFile fs true (some path) g)
      ⟨g.nextAddr, info.channels, samples⟩
      ⟨g.nextAddr + 1, info.channels, info.samplerate, 256, true⟩ ∧
    (openAudioFile fs true (some path) g).audioData = g.audioData ∧
    (openAudioFile fs true (some path) g).audioFileInfo = info ∧
    (openAudioFile fs true (some path) g).leftVolume = g.leftVolume ∧
    (openAudioFile fs true (some path) g).rightVolume = g.rightVolume ∧
    (openAudioFile fs true (some path) g).wideLeftSliderValue = g.wideLeftSliderValue ∧
    (openAudioFile fs true (some path) g).wideRightSliderValue =
      g.wideRightSliderValue := by
  obtain ⟨hfiles, hfile, -, hstreams, hstream, -⟩ := hs
  simp [openAudioFile, OneSession, hfiles, hfile, hstreams, hstream, hfs, sf_open,
    closeAudioFile, clearAudioFile, sf_close, stopAudioStream, closeAudioStream,
    Pa_StopStream, Pa_CloseStream, Pa_OpenDefaultStream, startAudioStream, Pa_StartStream]

/-- C5 as stated fails: open `a.wav`, let the callback play its one frame, then
open `b.wav`.  The callback returns `paContinue` with the block `[1/2, 1/2]`,
which is then the content of `audioData`, and after the switch to `b.wav`
`audioData` still holds these two samples of the old session. -/
theorem openAudioFile_keeps_old_samples :
    (audioCallback (openAudioFile fsDemo true (some "a.wav") Globals.initial) [0, 0] 1).map
      (fun r => (r.1, r.2.1, r.2.2.audioData,
        (openAudioFile fsDemo true (some "b.wav") r.2.2).audioData,
        (openAudioFile fsDemo true (some "b.wav") r.2.2).audioFile)) =
      some (paContinue, [1 / 2, 1 / 2], [1 / 2, 1 / 2], [1 / 2, 1 / 2], some 3) := by
  norm_num [audioCallback, openAudioFile, fsDemo_a, fsDemo_b, Globals.initial, lookupFile,
    sf_readf_float, scaleFrames, scaleFrame, scaleSample, storeFile, toUInt64, paContinue,
    List.range, List.range.loop, sf_open, closeAudioFile, clearAudioFile, sf_close,
    stopAudioStream, closeAudioStream, Pa_StopStream, Pa_CloseStream,
    Pa_OpenDefaultStream, startAudioStream, Pa_StartStream]

/-- C5, amended: opening a decodable file while one session is active leaves
exactly one active session, the new one (the new decoder is the only decoder
open and the decoder handle points to it, the new stream is the only stream open,
it runs, and the stream handle points to it).  `audioData` is not cleared: it is
what it was before the call, so the samples of the old session stay in it, and a
callback after the switch appends after them a block decoded from the new
file. -/
theorem openAudioFile_one_session_after (fs : String → OpenOutcome) (path : String)
    (info : SF_INFO) (samples : List ℚ) (g : Globals) (f : SNDFILE) (st : PaStream)
    (hs : OneSession g f st) (hfs : fs path = .decoded info samples) :
    OneSession (openAudioFile fs true (some path) g)
      ⟨g.nextAddr, info.channels, samples⟩
      ⟨g.nextAddr + 1, info.channels, info.samplerate, 256, true⟩ ∧
    (openAudioFile fs true (some path) g).audioData = g.audioData ∧
    ∀ outputBuffer frameCount, ∃ code out g2,
      audioCallback (openAudioFile fs true (some path) g) outputBuffer frameCount =
        some (code, out, g2) ∧
      g2.audioData = g.audioData ++
        processedBlock (openAudioFile fs true (some path) g)
          (sf_readf_float ⟨g.nextAddr, info.channels, samples⟩ frameCount).2.1 := by
  obtain ⟨hone, hdata, -⟩ := openAudioFile_switch fs path info samples g f st hs hfs
  refine ⟨hone, hdata, ?_⟩
  intro outputBuffer frameCount
  obtain ⟨hfiles, hfile, hch, -⟩ := hone
  have hlook : lookupFile (openAudioFile fs true (some path) g).sndfiles g.nextAddr =
      some ⟨g.nextAddr, info.channels, samples⟩ := by
    rw [hfiles]
    simp [lookupFile]
  obtain ⟨out, g2, hcall, hout, happ, -⟩ :=
    audioCallback_open (openAudioFile fs true (some path) g) outputBuffer frameCount
      g.nextAddr ⟨g.nextAddr, info.channels, samples⟩ hfile hlook
  refine ⟨_, out, g2, hcall, ?_⟩
  rw [happ, hdata, hout,
    scaled_block_eq (openAudioFile fs true (some path) g) outputBuffer frameCount
      ⟨g.nextAddr, info.channels, samples⟩ hch]

/-- The instance of the amended C5 at `stereoSession` and `b.wav`. -/
theorem openAudioFile_one_session_after_witness :
    OneSession stereoSession ⟨1, 2, [1, 1]⟩ ⟨2, 2, 44100, 256, true⟩ ∧
    fsDemo "b.wav" = .decoded ⟨1, 8000⟩ [3, 4, 5] ∧
    OneSession (openAudioFile fsDemo true (some "b.wav") stereoSession)
      ⟨stereoSession.nextAddr, (⟨1, 8000⟩ : SF_INFO).channels, [3, 4, 5]⟩
      ⟨stereoSession.nextAddr + 1, (⟨1, 8000⟩ : SF_INFO).channels,
        (⟨1, 8000⟩ : SF_INFO).samplerate, 256, true⟩ ∧
    (openAudioFile fsDemo true (some "b.wav") stereoSession).audioData =
      stereoSession.audioData ∧
    ∀ outputBuffer frameCount, ∃ code out g2,
      audioCallback (openAudioFile fsDemo true (some "b.wav") stereoSession)
        outputBuffer frameCount = some (code, out, g2) ∧
      g2.audioData = stereoSession.audioData ++
        processedBlock (openAudioFile fsDemo true (some "b.wav") stereoSession)
          (sf_readf_float ⟨stereoSession.nextAddr, (⟨1, 8000⟩ : SF_INFO).channels,
            [3, 4, 5]⟩ frameCount).2.1 :=
  ⟨⟨rfl, rfl, rfl, rfl, rfl, rfl⟩, fsDemo_b,
    openAudioFile_one_session_after fsDemo "b.wav" ⟨1, 8000⟩ [3, 4, 5] stereoSession
      ⟨1, 2, [1, 1]⟩ ⟨2, 2, 44100, 256, true⟩ ⟨rfl, rfl, rfl, rfl, rfl, rfl⟩ fsDemo_b⟩

/-- C6 as stated fails: on the running `stereoSession` the file `notes.txt` cannot
be decoded; before the call the decoder handle is the open decoder at address 1,
after the call it is null and libsndfile holds no decoder, while the stream still
runs. -/
theorem openAudioFile_failure_changes_handle :
    fsDemo "notes.txt" = .failed none ∧
    stereoSession.audioFile = some 1 ∧
    decoderLive stereoSession 1 = true ∧
    (openAudioFile fsDemo true (some "notes.txt") stereoSession).audioFile = none ∧
    (openAudioFile fsDemo true (some "notes.txt") stereoSession).audioFile ≠
      stereoSession.audioFile ∧
    (openAudioFile fsDemo true (some "notes.txt") stereoSession).sndfiles = [] ∧
    streamStarted (openAudioFile fsDemo true (some "notes.txt") stereoSession) 2 = true := by
  refine ⟨fsDemo_notes, rfl, by decide, ?_, ?_, ?_, ?_⟩ <;>
    simp [openAudioFile, fsDemo_notes, stereoSession, Globals.initial, sf_open,
      closeAudioFile, clearAudioFile, sf_close, reportOpenError, streamStarted]

/-- C6, amended: when `sf_open` returns null, the message is written to
`std::cerr`, the stream handle, the open streams and so their running state are
what they were before the call, and `audioData` is untouched; the decoder handle
is null afterwards, the decoder it pointed to before the call having been
released before `sf_open` was tried.  The decoder handle and the open decoders
are unchanged when the handle was null before the call. -/
theorem openAudioFile_failure (fs : String → OpenOutcome) (path : String)
    (info : Option SF_INFO) (g : Globals) (hfs : fs path = .failed info) :
    (openAudioFile fs true (some path) g).cerr = g.cerr ++ ["Error opening audio file."] ∧
    (openAudioFile fs true (some path) g).audioStream = g.audioStream ∧
    (openAudioFile fs true (some path) g).streams = g.streams ∧
    (openAudioFile fs true (some path) g).audioData = g.audioData ∧
    (openAudioFile fs true (some path) g).audioFile = none ∧
    (∀ p, g.audioFile = some p →
      (openAudioFile fs true (some path) g).sndfiles = sf_close g.sndfiles p) ∧
    (g.audioFile = none →
      (openAudioFile fs true (some path) g).audioFile = g.audioFile ∧
      (openAudioFile fs true (some path) g).sndfiles = g.sndfiles) := by
  cases hg : g.audioFile with
  | none =>
    simp [openAudioFile, hg, hfs, sf_open, reportOpenError]
  | some p =>
    simp [openAudioFile, hg, hfs, sf_open, reportOpenError, closeAudioFile, clearAudioFile]

/-- The instance of the amended C6 at `stereoSession` and `notes.txt`. -/
theorem openAudioFile_failure_witness :
    fsDemo "notes.txt" = .failed none ∧
    (openAudioFile fsDemo true (some "notes.txt") stereoSession).cerr =
      stereoSession.cerr ++ ["Error opening audio file."] ∧
    (openAudioFile fsDemo true (some "notes.txt") stereoSession).audioStream =
      stereoSession.audioStream ∧
    (openAudioFile fsDemo true (some "notes.txt") stereoSession).streams =
      stereoSession.streams ∧
    (openAudioFile fsDemo true (some "notes.txt") stereoSession).audioData =
      stereoSession.audioData ∧
    (openAudioFile fsDemo true (some "notes.txt") stereoSession).audioFile = none ∧
    (∀ p, stereoSession.audioFile = some p →
      (openAudioFile fsDemo true (some "notes.txt") stereoSession).sndfiles =
        sf_close stereoSession.sndfiles p) ∧
    (stereoSession.audioFile = none →
      (openAudioFile fsDemo true (some "notes.txt") stereoSession).audioFile =
        stereoSession.audioFile ∧
      (openAudioFile fsDemo true (some "notes.txt") stereoSession).sndfiles =
        stereoSession.sndfiles) :=
  ⟨fsDemo_notes, openAudioFile_failure fsDemo "notes.txt" none stereoSession fsDemo_notes⟩

/-- C7, at the failing input: `b.wav` is opened while `stereoSession` runs, its
stream at address 2 and its decoder at address 1.  Of the eight states the call
passes through, the second (after `sf_close`, the handle pointing at the released
decoder), the third (the handle null) and the fourth (the handle on the new
decoder) have the old stream still running without its decoder; in the second a
callback reads through the released handle.  The end of `main` takes the other
order and passes through no such state. -/
theorem openAudioFile_closes_decoder_under_running_stream :
    (openAudioFileTrace fsDemo true (some "b.wav") stereoSession).map
        (fun g => (g.audioFile, decoderLive g 1, streamStarted g 2, halfTornDown g 2 1)) =
      [(some 1, true, true, false), (some 1, false, true, true),
       (none, false, true, true), (some 3, false, true, true),
       (some 3, false, false, false), (some 3, false, false, false),
       (some 3, false, false, false), (some 3, false, false, false)] ∧
    (openAudioFileTrace fsDemo true (some "b.wav") stereoSession).map
        (fun g => (audioCallback g [0, 0] 1).isSome) =
      [true, false, true, true, true, true, true, true] ∧
    (mainTeardownTrace stereoSession).map (fun g => halfTornDown g 2 1) =
      [false, false, false, false] := by
  decide

/-- The teardown at the end of `main`, from any single running session, passes
through no state in which the stream runs without its decoder. -/
theorem mainTeardownTrace_ordered (g : Globals) (f : SNDFILE) (st : PaStream)
    (hs : OneSession g f st) :
    ∀ x ∈ mainTeardownTrace g, halfTornDown x st.addr f.addr = false := by
  obtain ⟨hfiles, hfile, -, hstreams, hstream, hrun⟩ := hs
  intro x hx
  simp [mainTeardownTrace, hfiles, hfile, hstreams, hstream, stopAudioStream,
    closeAudioStream, closeAudioFile, Pa_StopStream, Pa_CloseStream, sf_close] at hx
  rcases hx with rfl | rfl | rfl | rfl <;>
    simp [halfTornDown, streamStarted, decoderLive, lookupFile, hfiles, hfile, hstreams,
      hstream, hrun]

/-- On every switch from a running session, whatever the new file is, the state
after `sf_close` is one of the states passed through; there the old stream runs,
the decoder handle points at the released decoder, and a callback reads through
it. -/
theorem openAudioFileTrace_released_under_stream (fs : String → OpenOutcome)
    (path : String) (g : Globals) (f : SNDFILE) (st : PaStream)
    (hs : OneSession g f st) (outputBuffer : List ℚ) (frameCount : Nat) :
    closeAudioFile g f.addr ∈ openAudioFileTrace fs true (some path) g ∧
    halfTornDown (closeAudioFile g f.addr) st.addr f.addr = true ∧
    audioCallback (closeAudioFile g f.addr) outputBuffer frameCount = none := by
  obtain ⟨hfiles, hfile, -, hstreams, hstream, hrun⟩ := hs
  refine ⟨?_, ?_, ?_⟩
  · unfold openAudioFileTrace
    simp only [if_true, hfile]
    split <;> simp
  · simp [halfTornDown, streamStarted, decoderLive, lookupFile, closeAudioFile, sf_close,
      hfiles, hfile, hstreams, hrun]
  · simp [audioCallback, closeAudioFile, sf_close, lookupFile, hfiles, hfile]

end PulseMix
